import Mathlib

/-!
Verification of the core of `dbxquerygen` (src/query_generator.py): the
statement Builder (`build_insert_query`, `build_update_query`), the syntax
Validator (`is_valid_sql`), and the mandatory-field gate of the
"Generate Insert Query" handler.  Python strings become `String`, Python
lists become `List String`, and `zip` (which truncates to the shorter list)
becomes `List.zip`.  The external `sqlparse` library is not part of the
repository; it is modelled from the spec where a claim depends on it.
-/

namespace DbxQueryGen

/-- Embedding of `build_insert_query` (src/query_generator.py lines 13-20):
joins the column names with `", "`, renders the values either as `?`
placeholders (one per element of `values`) or as single-quoted literals,
and interpolates both into the INSERT template. -/
def build_insert_query (catalog schema table : String)
    (columns values : List String) (param_mode : Bool) : String :=
  let cols := String.intercalate ", " columns
  let vals :=
    if param_mode then String.intercalate ", " (values.map fun _ => "?")
    else String.intercalate ", " (values.map fun v => "'" ++ v ++ "'")
  "INSERT INTO " ++ catalog ++ "." ++ schema ++ "." ++ table ++
    " (" ++ cols ++ ") VALUES (" ++ vals ++ ");"

/-- Embedding of `build_update_query` (src/query_generator.py lines 22-30):
renders `col=?` per set column in parameterized mode, or `col='val'` over
`zip set_columns set_values` in literal mode, and the WHERE predicate
`where_column=?` or `where_column='where_value'`. -/
def build_update_query (catalog schema table : String)
    (set_columns set_values : List String)
    (where_column where_value : String) (param_mode : Bool) : String :=
  let set_expr :=
    if param_mode then
      String.intercalate ", " (set_columns.map fun col => col ++ "=?")
    else
      String.intercalate ", "
        ((set_columns.zip set_values).map fun p => p.1 ++ "='" ++ p.2 ++ "'")
  let where_expr :=
    if param_mode then where_column ++ "=?"
    else where_column ++ "='" ++ where_value ++ "'"
  "UPDATE " ++ catalog ++ "." ++ schema ++ "." ++ table ++
    " SET " ++ set_expr ++ " WHERE " ++ where_expr ++ ";"

/-- Rendering of a literal INSERT written from the spec's words for
comparison with the source embedding: the column list is the first
components of the aligned (column, value) pairs joined by `", "`, and the
value list is each pair's second component wrapped in single quotes, so
that values[i] is aligned to columns[i] by construction. -/
def spec_insert_literal (catalog schema table : String)
    (fields : List (String × String)) : String :=
  "INSERT INTO " ++ catalog ++ "." ++ schema ++ "." ++ table ++
    " (" ++ String.intercalate ", " (fields.map Prod.fst) ++ ") VALUES (" ++
    String.intercalate ", " (fields.map fun p => "'" ++ p.2 ++ "'") ++ ");"

/-- A top-level unit produced by the SQL parser, at the granularity the
Validator inspects: the code reads only each unit's group flag
(`token.is_group`). -/
structure SqlUnit where
  is_group : Bool
  deriving DecidableEq

/-- Modelled from the spec: statement splitting of the external
general-purpose SQL parser (`sqlparse`, not part of this repository).  The
raw text is cut into top-level statement units at each `;` (the separator
stays with its unit); a trailing fragment that is empty or all-whitespace
yields no unit, so empty input parses to no units. -/
def split_stmts : List Char → List Char → List (List Char)
  | [], cur => if cur.all (fun c => c.isWhitespace) then [] else [cur.reverse]
  | c :: rest, cur =>
    if c = ';' then (c :: cur).reverse :: split_stmts rest []
    else split_stmts rest (c :: cur)

/-- Modelled from the spec: whether one statement unit is a compound
syntactic group rather than a bare token stream with no internal
structure.  The unit is a group when every single-quoted literal it opens
is closed, its parentheses outside literals balance, and it contains at
least one grouping construct (a parenthesized group or a string literal);
an unbalanced/invalid literal prevents grouping.  The scanner carries the
in-literal flag, the paren depth, and whether structure was seen. -/
def group_scan : List Char → Bool → Nat → Bool → Bool
  | [], inq, depth, seen => !inq && depth == 0 && seen
  | c :: rest, inq, depth, seen =>
    if inq then
      if c = '\'' then group_scan rest false depth seen
      else group_scan rest true depth seen
    else if c = '\'' then group_scan rest true depth true
    else if c = '(' then group_scan rest false (depth + 1) true
    else if c = ')' then
      match depth with
      | 0 => false
      | d + 1 => group_scan rest false d seen
    else group_scan rest false depth seen

/-- Whether a statement unit forms a compound syntactic group
(see `group_scan`). -/
def unit_is_group (u : List Char) : Bool := group_scan u false 0 false

/-- Modelled from the spec: `sqlparse.parse` as the Validator consumes it —
a list of top-level units, each carrying its group flag.  This modelled
parser never raises; `is_valid_sql_gen` keeps the raising case abstract. -/
def sqlparse_parse (query : String) : Except String (List SqlUnit) :=
  Except.ok ((split_stmts query.toList []).map fun u => SqlUnit.mk (unit_is_group u))

/-- Embedding of `is_valid_sql` (src/query_generator.py lines 32-38),
parameterized by the external parser, which may fail (the `except` branch).
Returns the validity verdict together with the surfaced diagnostic message
(`st.error(f"SQL validation error: {e}")` in the source): on parser
failure the verdict is `false` and the message is surfaced; otherwise the
verdict is `bool(parsed) and all(token.is_group for token in parsed)`. -/
def is_valid_sql_gen (parse : String → Except String (List SqlUnit))
    (query : String) : Bool × Option String :=
  match parse query with
  | Except.ok parsed =>
      (!parsed.isEmpty && parsed.all (fun t => t.is_group), none)
  | Except.error e => (false, some ("SQL validation error: " ++ e))

/-- `is_valid_sql` with the modelled parser plugged in: the boolean verdict
the handlers branch on. -/
def is_valid_sql (query : String) : Bool :=
  (is_valid_sql_gen sqlparse_parse query).1

/-- Outcome of the "Generate Insert Query" handler: either the gate reports
the missing mandatory columns and builds nothing, or a query is built and
classified by the Validator. -/
inductive InsertOutcome where
  | missingFields : List String → InsertOutcome
  | validQuery : String → InsertOutcome
  | invalidQuery : String → InsertOutcome
  deriving DecidableEq

/-- Python's `str.strip()`: the string with leading and trailing whitespace
removed (rendered over the character list so it evaluates). -/
def strip (s : String) : String :=
  String.mk
    (((s.toList.dropWhile Char.isWhitespace).reverse.dropWhile
      Char.isWhitespace).reverse)

/-- Embedding of the mandatory-field check (src/query_generator.py line
137): `[col for col, val in zip(mandatory_columns, insert_values) if not
val.strip()]` — a Python string is falsy exactly when it is empty, so the
kept pairs are those whose stripped value is the empty string. -/
def missing_fields (mandatory_columns insert_values : List String) :
    List String :=
  ((mandatory_columns.zip insert_values).filter
    fun p => strip p.2 == "").map Prod.fst

/-- Embedding of the "Generate Insert Query" handler (src/query_generator.py
lines 135-152): when any mandatory field is blank the missing column names
are reported and no statement is built; otherwise `build_insert_query` runs
and its output is classified by `is_valid_sql`. -/
def generate_insert_handler (catalog schema table : String)
    (mandatory_columns insert_values final_columns final_values : List String)
    (param_mode : Bool) : InsertOutcome :=
  let mf := missing_fields mandatory_columns insert_values
  if mf.isEmpty then
    let q := build_insert_query catalog schema table
      final_columns final_values param_mode
    if is_valid_sql q then InsertOutcome.validQuery q
    else InsertOutcome.invalidQuery q
  else InsertOutcome.missingFields mf

/-- Modelled from the spec: a parser that fails internally on every input,
exercising the Validator's failure branch (ParserInternalError). -/
def failing_parse : String → Except String (List SqlUnit) :=
  fun _ => Except.error "tokenize failure"

lemma map_const_placeholder (l : List String) :
    (l.map fun _ => "?") = List.replicate l.length "?" := by
  induction l with
  | nil => rfl
  | cons a t ih => simp [List.replicate, ih]

end DbxQueryGen

namespace DbxQueryGen

/-- C1: in literal mode `build_insert_query` returns exactly
`INSERT INTO {catalog}.{schema}.{table} (<cols>) VALUES (<vals>);` where
the columns are joined by `", "` in the given order and each value is
wrapped in single quotes, values[i] aligned to columns[i] (stated against
`spec_insert_literal`, the rendering written from the spec's words over
aligned pairs); in particular the my_catalog/my_schema/my_table scenario
returns exactly the expected text. -/
theorem insert_literal_matches_spec (catalog schema table : String)
    (columns values : List String) (h : columns.length = values.length) :
    build_insert_query catalog schema table columns values false =
      spec_insert_literal catalog schema table (columns.zip values) ∧
    build_insert_query "my_catalog" "my_schema" "my_table"
        ["id", "name"] ["1", "bob"] false =
      "INSERT INTO my_catalog.my_schema.my_table (id, name) VALUES ('1', 'bob');" := by
  constructor
  · have h1 : (columns.zip values).map Prod.fst = columns :=
      List.map_fst_zip _ _ (le_of_eq h)
    have h2 : (columns.zip values).map Prod.snd = values :=
      List.map_snd_zip _ _ (le_of_eq h.symm)
    have h3 : ((columns.zip values).map fun p => "'" ++ p.2 ++ "'") =
        values.map fun v => "'" ++ v ++ "'" := by
      have hcomp : ((columns.zip values).map fun p => "'" ++ p.2 ++ "'") =
          ((columns.zip values).map Prod.snd).map fun v => "'" ++ v ++ "'" := by
        rw [List.map_map]; rfl
      rw [hcomp, h2]
    simp [build_insert_query, spec_insert_literal, h1, h3]
  · rfl

/-- C1 witness: the general alignment theorem applied to the concrete
two-column scenario. -/
theorem insert_literal_matches_spec_witness :
    List.length ["id", "name"] = List.length ["1", "bob"] ∧
    build_insert_query "my_catalog" "my_schema" "my_table"
        ["id", "name"] ["1", "bob"] false =
      spec_insert_literal "my_catalog" "my_schema" "my_table"
        (List.zip ["id", "name"] ["1", "bob"]) :=
  ⟨rfl, (insert_literal_matches_spec "my_catalog" "my_schema" "my_table"
    ["id", "name"] ["1", "bob"] rfl).1⟩

/-- C2 counterexample: with two columns and one value, `build_insert_query`
does not fail — it returns complete SQL text (and `build_update_query`
silently truncates), refuting "raises a contract violation, producing no
SQL text". -/
theorem mismatch_produces_text :
    build_insert_query "my_catalog" "my_schema" "my_table"
        ["id", "name"] ["1"] false =
      "INSERT INTO my_catalog.my_schema.my_table (id, name) VALUES ('1');" ∧
    build_update_query "my_catalog" "my_schema" "my_table"
        ["id", "name"] ["1"] "id" "1" false =
      "UPDATE my_catalog.my_schema.my_table SET id='1' WHERE id='1';" :=
  ⟨rfl, rfl⟩

/-- C2 amended: the builders perform no length check — on any
columns/values pair of different lengths, `build_insert_query` still
returns the full statement text, with every column listed and one quoted
value per element of `values`, and `build_update_query` still returns a
statement whose assignments are the zipped (hence truncated) pairs. -/
theorem mismatch_no_length_check (catalog schema table : String)
    (columns values : List String) (where_column where_value : String)
    (h : columns.length ≠ values.length) :
    build_insert_query catalog schema table columns values false =
      "INSERT INTO " ++ catalog ++ "." ++ schema ++ "." ++ table ++
        " (" ++ String.intercalate ", " columns ++ ") VALUES (" ++
        String.intercalate ", " (values.map fun v => "'" ++ v ++ "'") ++ ");" ∧
    build_update_query catalog schema table columns values
        where_column where_value false =
      "UPDATE " ++ catalog ++ "." ++ schema ++ "." ++ table ++ " SET " ++
        String.intercalate ", "
          ((columns.zip values).map fun p => p.1 ++ "='" ++ p.2 ++ "'") ++
        " WHERE " ++ (where_column ++ "='" ++ where_value ++ "'") ++ ";" :=
  ⟨rfl, rfl⟩

/-- C2 amended witness: the no-length-check theorem applied at a concrete
mismatched input. -/
theorem mismatch_no_length_check_witness :
    List.length ["id", "name"] ≠ List.length ["1"] ∧
    build_insert_query "c" "s" "t" ["id", "name"] ["1"] false =
      "INSERT INTO " ++ "c" ++ "." ++ "s" ++ "." ++ "t" ++
        " (" ++ String.intercalate ", " ["id", "name"] ++ ") VALUES (" ++
        String.intercalate ", " (["1"].map fun v => "'" ++ v ++ "'") ++ ");" :=
  ⟨by decide, (mismatch_no_length_check "c" "s" "t" ["id", "name"] ["1"]
    "id" "1" (by decide)).1⟩

/-- C3: `is_valid_sql` returns true iff parsing yields at least one
statement unit and every top-level unit is a compound syntactic group; in
particular the complete INSERT is classified true, the bare token stream
`INSERT INTO` false, and empty input false. -/
theorem is_valid_sql_characterization (q : String) (units : List SqlUnit)
    (h : sqlparse_parse q = Except.ok units) :
    (is_valid_sql q = true ↔ units ≠ [] ∧ ∀ u ∈ units, u.is_group = true) ∧
    is_valid_sql "INSERT INTO a.b.c (id) VALUES ('1');" = true ∧
    is_valid_sql "INSERT INTO" = false ∧
    is_valid_sql "" = false := by
  refine ⟨?_, by decide, by decide, by decide⟩
  have hv : is_valid_sql q = (!units.isEmpty && units.all fun t => t.is_group) := by
    simp [is_valid_sql, is_valid_sql_gen, h]
  rw [hv]
  cases units with
  | nil => simp
  | cons u t => simp [List.all_eq_true]

/-- C3 witness: the characterization applied at `"INSERT INTO"`, whose
modelled parse is one non-group unit. -/
theorem is_valid_sql_characterization_witness :
    sqlparse_parse "INSERT INTO" = Except.ok [SqlUnit.mk false] ∧
    ((is_valid_sql "INSERT INTO" = true ↔
        [SqlUnit.mk false] ≠ [] ∧
        ∀ u ∈ [SqlUnit.mk false], u.is_group = true) ∧
      is_valid_sql "INSERT INTO a.b.c (id) VALUES ('1');" = true ∧
      is_valid_sql "INSERT INTO" = false ∧
      is_valid_sql "" = false) :=
  ⟨rfl, is_valid_sql_characterization "INSERT INTO" [SqlUnit.mk false] rfl⟩

/-- C4: in parameterized mode `build_insert_query` renders exactly one `?`
placeholder per column (given equal-length lists), comma-joined, and the
output is byte-identical for any two value lists of the same length — no
value text is embedded. -/
theorem insert_param_value_independent (catalog schema table : String)
    (columns values other_values : List String)
    (h : columns.length = values.length)
    (h2 : columns.length = other_values.length) :
    build_insert_query catalog schema table columns values true =
      "INSERT INTO " ++ catalog ++ "." ++ schema ++ "." ++ table ++
        " (" ++ String.intercalate ", " columns ++ ") VALUES (" ++
        String.intercalate ", " (List.replicate columns.length "?") ++ ");" ∧
    build_insert_query catalog schema table columns values true =
      build_insert_query catalog schema table columns other_values true := by
  constructor
  · simp [build_insert_query, map_const_placeholder, ← h]
  · simp [build_insert_query, map_const_placeholder, h.symm.trans h2]

/-- C4 witness: placeholder rendering and value-independence at a concrete
pair of distinct value lists. -/
theorem insert_param_value_independent_witness :
    List.length ["id"] = List.length ["secret"] ∧
    List.length ["id"] = List.length ["other"] ∧
    build_insert_query "c" "s" "t" ["id"] ["secret"] true =
      build_insert_query "c" "s" "t" ["id"] ["other"] true :=
  ⟨rfl, rfl, (insert_param_value_independent "c" "s" "t" ["id"]
    ["secret"] ["other"] rfl rfl).2⟩

/-- C5: a literal value containing a single quote is embedded without any
escaping — the output is exactly the template with the raw value between
quotes — and the resulting statement is classified false by the
Validator. -/
theorem unescaped_quote_invalid :
    build_insert_query "my_catalog" "my_schema" "my_table"
        ["name"] ["O'Brien"] false =
      "INSERT INTO my_catalog.my_schema.my_table (name) VALUES ('O'Brien');" ∧
    is_valid_sql
      "INSERT INTO my_catalog.my_schema.my_table (name) VALUES ('O'Brien');" =
      false :=
  ⟨rfl, by decide⟩

/-- C6: the mandatory-field gate reports exactly the mandatory column names
whose aligned value is empty or all-whitespace after stripping; whenever
that list is non-empty the handler stops at `missingFields` and builds no
statement; and on `["id", "name"]` with values `["", "bob"]` it reports
exactly `["id"]`. -/
theorem mandatory_gate_reports_blank (catalog schema table : String)
    (mandatory_columns insert_values final_columns final_values : List String)
    (param_mode : Bool) :
    (∀ col, col ∈ missing_fields mandatory_columns insert_values ↔
      ∃ p ∈ mandatory_columns.zip insert_values, p.1 = col ∧ strip p.2 = "") ∧
    (missing_fields mandatory_columns insert_values ≠ [] →
      generate_insert_handler catalog schema table mandatory_columns
        insert_values final_columns final_values param_mode =
        InsertOutcome.missingFields
          (missing_fields mandatory_columns insert_values)) ∧
    generate_insert_handler catalog schema table ["id", "name"] ["", "bob"]
        final_columns final_values param_mode =
      InsertOutcome.missingFields ["id"] := by
  refine ⟨?_, ?_, ?_⟩
  · intro col
    simp only [missing_fields, List.mem_map, List.mem_filter, beq_iff_eq]
    constructor
    · rintro ⟨p, ⟨hp, hs⟩, hc⟩
      exact ⟨p, hp, hc, hs⟩
    · rintro ⟨p, hp, hc, hs⟩
      exact ⟨p, ⟨hp, hs⟩, hc⟩
  · intro hne
    cases hl : missing_fields mandatory_columns insert_values with
    | nil => exact absurd hl hne
    | cons a t => simp [generate_insert_handler, hl]
  · have hm : missing_fields ["id", "name"] ["", "bob"] = ["id"] := by decide
    simp [generate_insert_handler, hm]

/-- C6 witness: the gate theorem applied at the concrete scenario, giving
`missingFields ["id"]` and no built statement. -/
theorem mandatory_gate_reports_blank_witness :
    generate_insert_handler "my_catalog" "my_schema" "my_table"
        ["id", "name"] ["", "bob"] ["id", "name"] ["", "bob"] false =
      InsertOutcome.missingFields ["id"] :=
  (mandatory_gate_reports_blank "my_catalog" "my_schema" "my_table"
    ["id", "name"] ["", "bob"] ["id", "name"] ["", "bob"] false).2.2

/-- C7: in parameterized mode `build_update_query` renders each set column
as `col=?` comma-joined in order and the predicate as `where_column=?`;
the concrete scenario returns exactly
`UPDATE my_catalog.my_schema.my_table SET name=? WHERE id=?;`. -/
theorem update_param_format (catalog schema table : String)
    (set_columns set_values : List String)
    (where_column where_value : String) :
    build_update_query catalog schema table set_columns set_values
        where_column where_value true =
      "UPDATE " ++ catalog ++ "." ++ schema ++ "." ++ table ++ " SET " ++
        String.intercalate ", " (set_columns.map fun col => col ++ "=?") ++
        " WHERE " ++ (where_column ++ "=?") ++ ";" ∧
    build_update_query "my_catalog" "my_schema" "my_table"
        ["name"] ["alice"] "id" "1" true =
      "UPDATE my_catalog.my_schema.my_table SET name=? WHERE id=?;" :=
  ⟨rfl, rfl⟩

/-- C8: `build_update_query` with an empty set-column list is not rejected:
in both modes it returns the single statement with an empty SET list and
the correctly formed WHERE predicate, terminated by `;`. -/
theorem update_empty_set_columns (catalog schema table : String)
    (set_values : List String) (where_column where_value : String)
    (param_mode : Bool) :
    build_update_query catalog schema table [] set_values
        where_column where_value param_mode =
      "UPDATE " ++ catalog ++ "." ++ schema ++ "." ++ table ++ " SET " ++
        "" ++ " WHERE " ++
        (if param_mode then where_column ++ "=?"
          else where_column ++ "='" ++ where_value ++ "'") ++ ";" := by
  cases param_mode <;> rfl

/-- C9: whenever the underlying parser fails with an internal error, the
Validator returns the verdict false together with the surfaced diagnostic
message, and (being a total function) never propagates the failure as a
crash. -/
theorem validator_surfaces_parse_error
    (parse : String → Except String (List SqlUnit)) (q e : String)
    (h : parse q = Except.error e) :
    is_valid_sql_gen parse q =
      (false, some ("SQL validation error: " ++ e)) := by
  simp [is_valid_sql_gen, h]

/-- C9 witness: the failure-branch theorem applied to a parser that fails
on every input. -/
theorem validator_surfaces_parse_error_witness :
    failing_parse "INSERT" = Except.error "tokenize failure" ∧
    is_valid_sql_gen failing_parse "INSERT" =
      (false, some ("SQL validation error: " ++ "tokenize failure")) :=
  ⟨rfl, validator_surfaces_parse_error failing_parse "INSERT"
    "tokenize failure" rfl⟩

/-- C10: the builders are total over all inputs — with no length
hypothesis at all, parameterized `build_insert_query` returns the full
statement with one `?` per element of `values`, literal
`build_update_query` returns the full statement whose assignments are the
zipped pairs, and the number of those assignments is
`min set_columns.length set_values.length`. -/
theorem builders_total_any_shape (catalog schema table : String)
    (columns values set_columns set_values : List String)
    (where_column where_value : String) :
    build_insert_query catalog schema table columns values true =
      "INSERT INTO " ++ catalog ++ "." ++ schema ++ "." ++ table ++
        " (" ++ String.intercalate ", " columns ++ ") VALUES (" ++
        String.intercalate ", " (List.replicate values.length "?") ++ ");" ∧
    build_update_query catalog schema table set_columns set_values
        where_column where_value false =
      "UPDATE " ++ catalog ++ "." ++ schema ++ "." ++ table ++ " SET " ++
        String.intercalate ", "
          ((set_columns.zip set_values).map fun p =>
            p.1 ++ "='" ++ p.2 ++ "'") ++
        " WHERE " ++ (where_column ++ "='" ++ where_value ++ "'") ++ ";" ∧
    ((set_columns.zip set_values).map fun p =>
      p.1 ++ "='" ++ p.2 ++ "'").length =
      min set_columns.length set_values.length := by
  refine ⟨?_, rfl, ?_⟩
  · simp [build_insert_query, map_const_placeholder]
  · simp [List.length_zip]

end DbxQueryGen
